import Mathlib

/-!
Verification of the vwarmup repository (src/vwarmup/main.py and
src/vwarmup/vwarmup.py) against its natural-language specification.

The embedding models:
  * the `Mode` enum of main.py (Mode.OFF / Mode.ON; the spec calls these
    IDLE and RUNNING respectively),
  * the climatization-state values matched by both event handlers,
  * the charger-state snapshot read from the Easee service
    (keys "smartCharging" and "chargerOpMode"),
  * the decision logic inlined in `toggle_smart_charging`
    (main.py lines 105-118) together with the surrounding remote-call
    sequence (lines 90-119),
  * the event handler of main.py (lines 59-87) and the event handler of
    vwarmup.py (lines 44-64),
  * the poll loop `weconnect_listener` (main.py lines 34-53).

Python dynamic values that matter to the logic (`state["smartCharging"]`
is used both as a truthiness test and in an `is False` identity test)
are modelled by `PyVal`.
-/

/-- A Python value as far as the decision logic can observe it: the
`smartCharging` field of the charger state dict is tested both for
truthiness (`if state["smartCharging"] and ...`) and for identity with
the boolean `False` (`state["smartCharging"] is False`). -/
inductive PyVal where
  | bool : Bool → PyVal
  | int : Int → PyVal
  | str : String → PyVal
  | none : PyVal
deriving DecidableEq

/-- Python truthiness of a `PyVal` (`bool(x)`). -/
def PyVal.truthy : PyVal → Bool
  | .bool b => b
  | .int n => n != 0
  | .str s => s != ""
  | .none => false

/-- Python `x is False`: true exactly for the boolean object `False`. -/
def PyVal.isLiterallyFalse : PyVal → Bool
  | .bool false => true
  | _ => false

/-- The `Mode` enum of main.py (lines 29-31).  `Mode.OFF` is what the
spec calls IDLE, `Mode.ON` is what the spec calls RUNNING. -/
inductive Mode where
  | OFF
  | ON
deriving DecidableEq

/-- The climatization-state values the event handlers match on: the six
members of the weconnect `ClimatizationState` enum, plus `other` for any
value outside the enumerated set (reached only by the catch-all arms). -/
inductive ClimatizationState where
  | off
  | heating
  | cooling
  | ventilation
  | invalid
  | unknown
  | other : String → ClimatizationState
deriving DecidableEq

/-- The charger-state snapshot: the two keys of the state dict that
`toggle_smart_charging` reads (main.py lines 102-108). -/
structure ChargerState where
  smartCharging : PyVal
  chargerOpMode : String
deriving DecidableEq

/-- The three possible outcomes of the decision logic of
`toggle_smart_charging` (spec §4.4 calls them DISABLE_SMART_CHARGING,
ENABLE_SMART_CHARGING, NO_OP). -/
inductive ChargingDecision where
  | disableSmartCharging
  | enableSmartCharging
  | noOp
deriving DecidableEq

/-- The decision inlined in `toggle_smart_charging` (main.py 105-118):
first branch `state["smartCharging"] and mode == Mode.ON and
state["chargerOpMode"] == "AWAITING_START"` turns smart charging off;
second branch `state["smartCharging"] is False and mode == Mode.OFF`
turns it on; otherwise nothing is done. -/
def chargingDecision (state : ChargerState) (mode : Mode) : ChargingDecision :=
  if state.smartCharging.truthy && mode == Mode.ON
      && state.chargerOpMode == "AWAITING_START" then
    .disableSmartCharging
  else if state.smartCharging.isLiterallyFalse && mode == Mode.OFF then
    .enableSmartCharging
  else
    .noOp

/-- The boolean written by `the_charger.smart_charging(...)` for each
decision: `False` on the disable branch (main.py line 111), `True` on
the enable branch (line 115), no write otherwise. -/
def decisionWrite : ChargingDecision → Option Bool
  | .disableSmartCharging => some false
  | .enableSmartCharging => some true
  | .noOp => Option.none

/-- The classification performed by the match statement of main.py's
event handler (lines 68-85): OFF spawns a task with `Mode.OFF`;
COOLING, HEATING and VENTILATION spawn a task with `Mode.ON`; INVALID
and UNKNOWN only log at debug level; any other value hits the bare
`return`.  The result is the mode of the spawned task, if any. -/
def classify : ClimatizationState → Option Mode
  | .off => some Mode.OFF
  | .cooling => some Mode.ON
  | .heating => some Mode.ON
  | .ventilation => some Mode.ON
  | .invalid => Option.none
  | .unknown => Option.none
  | .other _ => Option.none

/-- What vwarmup.py's event handler prints for a climatization value. -/
inductive VwarmupAction where
  | climatizationOff
  | invalidState
  | unknownState
  | climatizationOn
deriving DecidableEq

/-- The classification performed by the match statement of vwarmup.py's
event handler (lines 56-64): OFF, INVALID and UNKNOWN each print their
own message, and the catch-all arm prints "Climatization is on." for
every other value. -/
def vwarmup_classify : ClimatizationState → VwarmupAction
  | .off => .climatizationOff
  | .invalid => .invalidState
  | .unknown => .unknownState
  | _ => .climatizationOn

/-- An attribute-change notification as seen by main.py's event handler:
whether the VALUE_CHANGED bit of the flags is set, the element's local
address, and the element's value. -/
structure Event where
  valueChanged : Bool
  localAddress : String
  value : ClimatizationState
deriving DecidableEq

/-- main.py's event handler (lines 59-87): only notifications with the
VALUE_CHANGED flag set whose element address is "climatisationState" are
considered, and the match statement (modelled by `classify`) determines
the mode of the reconciliation task spawned, if any. -/
def event_handler (e : Event) : Option Mode :=
  if e.valueChanged && e.localAddress == "climatisationState" then
    classify e.value
  else
    Option.none

/-- The reconciliation tasks spawned by one invocation of the event
handler: `asyncio.create_task(toggle_smart_charging(args, m))` is called
exactly when the match produced a mode `m` (main.py lines 71 and 78). -/
def spawnedTasks (e : Event) : List Mode :=
  match event_handler e with
  | some m => [m]
  | Option.none => []

/-- An exception raised by a modelled Python operation: a remote-service
failure raised by an awaited call, or the IndexError raised by `[0]` on
an empty list. -/
inductive PyErr where
  | transient
  | indexError
deriving DecidableEq

/-- A charger is identified only by the opaque handle the service
returns; an identifier suffices for the model. -/
abbrev Charger := Nat

/-- A circuit as `toggle_smart_charging` uses it: `get_circuits` of a
site yields circuits, `get_chargers` of a circuit yields chargers. -/
structure Circuit where
  chargers : List Charger
deriving DecidableEq

/-- A site as `toggle_smart_charging` uses it. -/
structure Site where
  circuits : List Circuit
deriving DecidableEq

/-- The Easee-service environment one reconciliation runs against: the
outcome of each remote call `toggle_smart_charging` can make.  Each
field models one awaited library call that may raise. -/
structure EaseeEnv where
  getSites : Except PyErr (List Site)
  getState : Charger → Except PyErr ChargerState
  setSmartCharging : Charger → Bool → Except PyErr Unit
  closeResult : Except PyErr Unit

/-- The remote charger-service calls a reconciliation can make. -/
inductive RemoteCall where
  | getSites
  | getState : Charger → RemoteCall
  | setSmartCharging : Charger → Bool → RemoteCall
  | close
deriving DecidableEq

/-- Outcome of one run of `toggle_smart_charging`: the exception that
escaped the coroutine (if any) and the remote calls made, in order. -/
structure ToggleResult where
  raised : Option PyErr
  calls : List RemoteCall
deriving DecidableEq

/-- The site → circuit → charger resolution of main.py lines 95-100:
`sites[0]`, its `get_circuits()[0]`, its `get_chargers()[0]`; `[0]` on
an empty list raises IndexError. -/
def resolveCharger (env : EaseeEnv) : Except PyErr Charger :=
  match env.getSites with
  | .error e => .error e
  | .ok sites =>
    match sites.head? with
    | Option.none => .error .indexError
    | some home =>
      match home.circuits.head? with
      | Option.none => .error .indexError
      | some theCircuit =>
        match theCircuit.chargers.head? with
        | Option.none => .error .indexError
        | some theCharger => .ok theCharger

/-- One run of `toggle_smart_charging` (main.py lines 90-119): resolve
the charger, fetch its state, take the decision, perform the write the
decision calls for, then call `easee.close()`.  The function body has no
try/finally, so the first exception propagates out of the coroutine and
skips everything after it, including the close. -/
def runToggle (env : EaseeEnv) (mode : Mode) : ToggleResult :=
  match resolveCharger env with
  | .error e => ⟨some e, [.getSites]⟩
  | .ok theCharger =>
    match env.getState theCharger with
    | .error e => ⟨some e, [.getSites, .getState theCharger]⟩
    | .ok state =>
      match decisionWrite (chargingDecision state mode) with
      | some b =>
        match env.setSmartCharging theCharger b with
        | .error e =>
          ⟨some e, [.getSites, .getState theCharger,
                    .setSmartCharging theCharger b]⟩
        | .ok _ =>
          match env.closeResult with
          | .error e =>
            ⟨some e, [.getSites, .getState theCharger,
                      .setSmartCharging theCharger b, .close]⟩
          | .ok _ =>
            ⟨Option.none, [.getSites, .getState theCharger,
                           .setSmartCharging theCharger b, .close]⟩
      | Option.none =>
        match env.closeResult with
        | .error e =>
          ⟨some e, [.getSites, .getState theCharger, .close]⟩
        | .ok _ =>
          ⟨Option.none, [.getSites, .getState theCharger, .close]⟩

/-- All remote charger calls caused by one notification: each spawned
reconciliation task runs `toggle_smart_charging`; with no task spawned,
no charger call is made. -/
def dispatchCalls (env : EaseeEnv) (e : Event) : List RemoteCall :=
  (spawnedTasks e).flatMap fun m => (runToggle env m).calls

/-- The effect of a decision on the charger service's own state, as
assumed by the spec's idempotence scenario: the write updates the
`smartCharging` flag and nothing else changes between the two runs. -/
def applyDecision (st : ChargerState) : ChargingDecision → ChargerState
  | .disableSmartCharging => { st with smartCharging := .bool false }
  | .enableSmartCharging => { st with smartCharging := .bool true }
  | .noOp => st

/-- The WeConnect environment a run of `weconnect_listener` sees: the
outcome of `connection.login()` and the outcomes of the successive
`connection.update()` calls (a finite prefix of the infinite loop). -/
structure WeConnectEnv where
  login : Except PyErr Unit
  updates : List (Except PyErr Unit)

/-- The update loop of `weconnect_listener` (main.py lines 51-53): each
iteration calls `connection.update()` with no exception handler, so the
first failure propagates and ends the loop.  Returns the escaped
exception (if any) and the number of update calls that completed. -/
def runUpdates : List (Except PyErr Unit) → Option PyErr × Nat
  | [] => (Option.none, 0)
  | .ok _ :: rest =>
    let r := runUpdates rest
    (r.1, r.2 + 1)
  | .error e :: _ => (some e, 0)

/-- A run of `weconnect_listener` (main.py lines 34-53) over a finite
prefix of poll cycles: `connection.login()` runs once with no exception
handler, then the update loop.  Returns the exception that escaped the
coroutine (if any) and the number of completed update calls. -/
def weconnect_listener (env : WeConnectEnv) : Option PyErr × Nat :=
  match env.login with
  | .error e => (some e, 0)
  | .ok _ => runUpdates env.updates

/-- A concrete environment with one site, one circuit, one charger, in
which the smart-charging write fails with a transient remote error. -/
def failingWriteEnv : EaseeEnv where
  getSites := .ok [⟨[⟨[0]⟩]⟩]
  getState := fun _ => .ok ⟨.bool true, "AWAITING_START"⟩
  setSmartCharging := fun _ _ => .error .transient
  closeResult := .ok ()

/-- A concrete environment in which every remote call succeeds. -/
def okEnv : EaseeEnv where
  getSites := .ok [⟨[⟨[0]⟩]⟩]
  getState := fun _ => .ok ⟨.bool false, "CHARGING"⟩
  setSmartCharging := fun _ _ => .ok ()
  closeResult := .ok ()

/-- A concrete environment whose first site's first circuit's first
charger is number 7. -/
def firstPickEnv : EaseeEnv where
  getSites := .ok [⟨[⟨[7, 8]⟩, ⟨[9]⟩]⟩, ⟨[⟨[10]⟩]⟩]
  getState := fun _ => .ok ⟨.bool false, "CHARGING"⟩
  setSmartCharging := fun _ _ => .ok ()
  closeResult := .ok ()

/-- C1: the charging decision is a total, deterministic function of
(smartCharging, mode, chargerOpMode); restricted to boolean
smartCharging values, it is DISABLE_SMART_CHARGING exactly on
(true, RUNNING, "AWAITING_START"), ENABLE_SMART_CHARGING exactly on
(false, IDLE, any op-mode), and NO_OP on every other combination
(Mode.ON is the spec's RUNNING, Mode.OFF the spec's IDLE). -/
theorem chargingDecision_matches_table (b : Bool) (m : Mode) (op : String) :
    (chargingDecision ⟨.bool b, op⟩ m = ChargingDecision.disableSmartCharging ↔
      b = true ∧ m = Mode.ON ∧ op = "AWAITING_START") ∧
    (chargingDecision ⟨.bool b, op⟩ m = ChargingDecision.enableSmartCharging ↔
      b = false ∧ m = Mode.OFF) ∧
    (chargingDecision ⟨.bool b, op⟩ m = ChargingDecision.noOp ↔
      ¬(b = true ∧ m = Mode.ON ∧ op = "AWAITING_START") ∧
      ¬(b = false ∧ m = Mode.OFF)) := by
  cases b <;> cases m <;> by_cases h : op = "AWAITING_START" <;>
    simp [chargingDecision, PyVal.truthy, PyVal.isLiterallyFalse, h]

/-- C3: the match in main.py's event handler is an exhaustive pure
mapping over the climatization-state enum: HEATING, COOLING and
VENTILATION yield the running mode (Mode.ON), OFF yields the idle mode
(Mode.OFF), and INVALID and UNKNOWN yield no mode, so no reconciliation
task is spawned for them. -/
theorem classify_exhaustive_table :
    classify .heating = some Mode.ON ∧
    classify .cooling = some Mode.ON ∧
    classify .ventilation = some Mode.ON ∧
    classify .off = some Mode.OFF ∧
    classify .invalid = Option.none ∧
    classify .unknown = Option.none :=
  ⟨rfl, rfl, rfl, rfl, rfl, rfl⟩

/-- C2, counterexample: with climatization RUNNING (Mode.ON),
smartCharging true and op-mode "AWAITING_START", the code writes the
flag to `false` (it disables smart charging), not to `true` as the
claim states. -/
theorem running_writes_false_not_true :
    decisionWrite (chargingDecision ⟨.bool true, "AWAITING_START"⟩ Mode.ON)
      = some false ∧
    decisionWrite (chargingDecision ⟨.bool true, "AWAITING_START"⟩ Mode.ON)
      ≠ some true := by
  constructor
  · rfl
  · intro h
    simp [chargingDecision, PyVal.truthy, decisionWrite] at h

/-- C2, amended: the direction is the opposite of the claim — while
climatization is running (Mode.ON) the only write the reconciler can
perform sets the smart-charging flag to false (charging starts), and
once climatization stops (Mode.OFF) the only write sets it to true
(charging is deferred). -/
theorem write_direction (st : ChargerState) (b : Bool) :
    (decisionWrite (chargingDecision st Mode.ON) = some b → b = false) ∧
    (decisionWrite (chargingDecision st Mode.OFF) = some b → b = true) := by
  constructor <;> intro h <;> unfold chargingDecision at h <;>
    split_ifs at h <;> simp_all [decisionWrite]

/-- C2, witness for the amended theorem at concrete inputs. -/
theorem write_direction_witness : (false = false) ∧ (true = true) :=
  ⟨(write_direction ⟨.bool true, "AWAITING_START"⟩ false).1 rfl,
   (write_direction ⟨.bool false, "X"⟩ true).2 rfl⟩

/-- C6: reconciliation with mode RUNNING (Mode.ON) is idempotent
against redundant toggles — if a run decides DISABLE_SMART_CHARGING,
then rerunning on the state left by its write (flag now false, nothing
else changed) decides NO_OP; and in general every write sets the flag
to a value different from the freshly fetched smartCharging value. -/
theorem reconcile_running_idempotent :
    (∀ st : ChargerState,
      chargingDecision st Mode.ON = ChargingDecision.disableSmartCharging →
      chargingDecision (applyDecision st ChargingDecision.disableSmartCharging)
        Mode.ON = ChargingDecision.noOp) ∧
    (∀ (st : ChargerState) (m : Mode) (b : Bool),
      decisionWrite (chargingDecision st m) = some b →
      st.smartCharging ≠ PyVal.bool b) := by
  constructor
  · intro st _
    simp [chargingDecision, applyDecision, PyVal.truthy, PyVal.isLiterallyFalse]
  · intro st m b h heq
    unfold chargingDecision at h
    split_ifs at h with h1 h2
    · simp only [decisionWrite, Option.some.injEq] at h
      rw [heq, ← h] at h1
      simp [PyVal.truthy] at h1
    · simp only [decisionWrite, Option.some.injEq] at h
      rw [heq, ← h] at h2
      simp [PyVal.isLiterallyFalse] at h2
    · simp [decisionWrite] at h

/-- C6, witness: the idempotence pair and the write-differs property at
the concrete state (smartCharging = true, op-mode "AWAITING_START"). -/
theorem reconcile_running_idempotent_witness :
    chargingDecision
      (applyDecision ⟨.bool true, "AWAITING_START"⟩
        ChargingDecision.disableSmartCharging) Mode.ON
      = ChargingDecision.noOp ∧
    (⟨.bool true, "AWAITING_START"⟩ : ChargerState).smartCharging
      ≠ PyVal.bool false :=
  ⟨reconcile_running_idempotent.1 ⟨.bool true, "AWAITING_START"⟩ rfl,
   reconcile_running_idempotent.2 ⟨.bool true, "AWAITING_START"⟩ Mode.ON
     false rfl⟩

/-- C9: with mode IDLE (Mode.OFF), the enable branch fires exactly when
the fetched smartCharging value is the boolean False object (Python
`is False`); for every other value — 0, None, a string, or True — the
decision is NO_OP and no write is performed. -/
theorem enable_only_on_literal_false (v : PyVal) (op : String) :
    (chargingDecision ⟨v, op⟩ Mode.OFF = ChargingDecision.enableSmartCharging ↔
      v = PyVal.bool false) ∧
    (v ≠ PyVal.bool false →
      chargingDecision ⟨v, op⟩ Mode.OFF = ChargingDecision.noOp ∧
      decisionWrite (chargingDecision ⟨v, op⟩ Mode.OFF) = Option.none) := by
  have hmode : (Mode.OFF == Mode.ON) = false := rfl
  constructor
  · cases v with
    | bool b =>
      cases b <;>
        simp [chargingDecision, PyVal.truthy, PyVal.isLiterallyFalse]
    | int n => simp [chargingDecision, PyVal.isLiterallyFalse]
    | str s => simp [chargingDecision, PyVal.isLiterallyFalse]
    | none => simp [chargingDecision, PyVal.isLiterallyFalse]
  · intro hv
    have : chargingDecision ⟨v, op⟩ Mode.OFF = ChargingDecision.noOp := by
      cases v with
      | bool b =>
        cases b
        · exact absurd rfl hv
        · simp [chargingDecision, PyVal.truthy, PyVal.isLiterallyFalse]
      | int n => simp [chargingDecision, PyVal.isLiterallyFalse]
      | str s => simp [chargingDecision, PyVal.isLiterallyFalse]
      | none => simp [chargingDecision, PyVal.isLiterallyFalse]
    exact ⟨this, by rw [this]; rfl⟩

/-- C9, witness: at the concrete value 0 (falsy but not the boolean
False) with mode IDLE, the outcome is NO_OP and no write happens. -/
theorem enable_only_on_literal_false_witness :
    chargingDecision ⟨.int 0, "CHARGING"⟩ Mode.OFF = ChargingDecision.noOp ∧
    decisionWrite (chargingDecision ⟨.int 0, "CHARGING"⟩ Mode.OFF)
      = Option.none :=
  (enable_only_on_literal_false (.int 0) "CHARGING").2 (by decide)

/-- C7: a notification whose climatization value is INVALID or UNKNOWN
causes no downstream action — the classifier yields no mode, the
handler spawns zero reconciliation tasks, and no remote charger call
is made at all, in every Easee environment. -/
theorem invalid_unknown_no_action (env : EaseeEnv) (e : Event)
    (h : e.value = ClimatizationState.invalid ∨
         e.value = ClimatizationState.unknown) :
    classify e.value = Option.none ∧
    event_handler e = Option.none ∧
    spawnedTasks e = [] ∧
    dispatchCalls env e = [] := by
  have hc : classify e.value = Option.none := by
    rcases h with h | h <;> rw [h] <;> rfl
  have he : event_handler e = Option.none := by
    unfold event_handler
    split
    · exact hc
    · rfl
  have hs : spawnedTasks e = [] := by
    unfold spawnedTasks
    rw [he]
  exact ⟨hc, he, hs, by unfold dispatchCalls; rw [hs]; rfl⟩

/-- C7, witness: an UNKNOWN-valued change notification on the
climatization address, in a concrete environment, produces no task and
no remote call. -/
theorem invalid_unknown_no_action_witness :
    classify (Event.mk true "climatisationState"
      ClimatizationState.unknown).value = Option.none ∧
    event_handler ⟨true, "climatisationState", ClimatizationState.unknown⟩
      = Option.none ∧
    spawnedTasks ⟨true, "climatisationState", ClimatizationState.unknown⟩
      = [] ∧
    dispatchCalls okEnv ⟨true, "climatisationState",
      ClimatizationState.unknown⟩ = [] :=
  invalid_unknown_no_action okEnv
    ⟨true, "climatisationState", ClimatizationState.unknown⟩ (Or.inr rfl)

/-- C8: charger resolution succeeds with charger c exactly when the
site enumeration succeeded and c is the first charger of the first
circuit of the first site; nothing else (no configuration) affects the
choice. -/
theorem resolveCharger_picks_first (env : EaseeEnv) (c : Charger) :
    resolveCharger env = .ok c ↔
      ∃ sites home theCircuit,
        env.getSites = .ok sites ∧
        sites.head? = some home ∧
        home.circuits.head? = some theCircuit ∧
        theCircuit.chargers.head? = some c := by
  constructor
  · intro h
    unfold resolveCharger at h
    split at h
    · exact absurd h (by simp)
    · rename_i sites hg
      split at h
      · exact absurd h (by simp)
      · rename_i home hs
        split at h
        · exact absurd h (by simp)
        · rename_i theCircuit hc
          split at h
          · exact absurd h (by simp)
          · rename_i ch hch
            cases h
            exact ⟨sites, home, theCircuit, hg, hs, hc, hch⟩
  · rintro ⟨sites, home, theCircuit, hg, hs, hc, hch⟩
    unfold resolveCharger
    simp [hg, hs, hc, hch]

/-- C4, counterexample: in an environment where the smart-charging
write fails with a transient error (mode RUNNING, flag true, op-mode
"AWAITING_START"), the exception escapes the coroutine and
`easee.close()` is never called — close does not run when a prior step
fails, and the task does not complete without raising. -/
theorem close_skipped_on_write_failure :
    (runToggle failingWriteEnv Mode.ON).raised = some PyErr.transient ∧
    RemoteCall.close ∉ (runToggle failingWriteEnv Mode.ON).calls := by
  constructor
  · rfl
  · intro hmem
    have : (runToggle failingWriteEnv Mode.ON).calls
        = [.getSites, .getState 0, .setSmartCharging 0 false] := rfl
    rw [this] at hmem
    simp at hmem

/-- C4, amended: `easee.close()` runs exactly when every prior step of
the reconciliation (site/circuit/charger resolution, state read, and
the write the decision calls for) succeeded; any earlier failure
propagates out of the task and skips the close (assuming the close
call itself succeeds when reached). -/
theorem close_iff_prior_success (env : EaseeEnv) (mode : Mode)
    (h : env.closeResult = .ok ()) :
    RemoteCall.close ∈ (runToggle env mode).calls ↔
      (runToggle env mode).raised = Option.none := by
  unfold runToggle
  cases hres : resolveCharger env with
  | error e => simp [hres]
  | ok theCharger =>
    cases hst : env.getState theCharger with
    | error e => simp [hres, hst]
    | ok state =>
      cases hw : decisionWrite (chargingDecision state mode) with
      | none => simp [hres, hst, hw, h]
      | some b =>
        cases hset : env.setSmartCharging theCharger b with
        | error e => simp [hres, hst, hw, hset]
        | ok u => simp [hres, hst, hw, hset, h]

/-- C4, witness for the amended theorem: in the all-success
environment, close is called and nothing is raised. -/
theorem close_iff_prior_success_witness :
    RemoteCall.close ∈ (runToggle okEnv Mode.ON).calls ↔
      (runToggle okEnv Mode.ON).raised = Option.none :=
  close_iff_prior_success okEnv Mode.ON rfl

/-- C5, counterexample: an error raised by `connection.login()`
escapes `weconnect_listener` — the coroutine terminates with the
exception and the scheduled update cycle never runs, so the error is
fatal to the listener rather than being logged and retried on the next
interval. -/
theorem login_error_kills_listener :
    weconnect_listener ⟨.error .transient, [.ok ()]⟩
      = (some PyErr.transient, 0) ∧
    some PyErr.transient ≠ (Option.none : Option PyErr) := by
  exact ⟨rfl, by simp⟩

/-- C5, amended: no remote-service error is caught in
`weconnect_listener` — a login failure propagates before any update
runs, and the first failing update call ends the loop with the
exception after exactly the preceding successful cycles; the loop does
not continue to the next interval. -/
theorem listener_dies_at_first_failure (pre post : List (Except PyErr Unit))
    (e : PyErr) (hpre : ∀ x ∈ pre, x = .ok ()) :
    weconnect_listener ⟨.ok (), pre ++ .error e :: post⟩
      = (some e, pre.length) ∧
    (∀ f : PyErr, weconnect_listener ⟨.error f, pre⟩ = (some f, 0)) := by
  constructor
  · show runUpdates (pre ++ .error e :: post) = (some e, pre.length)
    induction pre with
    | nil => rfl
    | cons x rest ih =>
      have hx : x = .ok () := hpre x (by simp)
      have hrest : ∀ y ∈ rest, y = .ok () := fun y hy => hpre y (by simp [hy])
      subst hx
      simp [runUpdates, ih hrest]
  · intro f
    rfl

/-- C5, witness for the amended theorem: one successful update followed
by a transient failure ends the listener with one completed cycle. -/
theorem listener_dies_at_first_failure_witness :
    weconnect_listener ⟨.ok (), [.ok ()] ++ .error PyErr.transient :: []⟩
      = (some PyErr.transient, ([Except.ok ()] :
          List (Except PyErr Unit)).length) ∧
    (∀ f : PyErr, weconnect_listener ⟨.error f, [.ok ()]⟩ = (some f, 0)) :=
  listener_dies_at_first_failure [.ok ()] [] PyErr.transient
    (by intro x hx; rw [List.mem_singleton] at hx; exact hx)

/-- C10: the two revisions do not classify equivalently — every value
outside {OFF, INVALID, UNKNOWN} (including values outside the
enumerated set) is reported as climatization-on by vwarmup.py's
handler, while main.py's handler maps every value outside the six
enumerated states to no mode, so they disagree on such values. -/
theorem revisions_classify_differently :
    (∀ s : ClimatizationState,
      s ≠ ClimatizationState.off → s ≠ ClimatizationState.invalid →
      s ≠ ClimatizationState.unknown →
      vwarmup_classify s = VwarmupAction.climatizationOn) ∧
    (∀ str : String, classify (.other str) = Option.none) ∧
    (vwarmup_classify (.other "") = VwarmupAction.climatizationOn ∧
      classify (.other "") = Option.none) := by
  refine ⟨?_, fun _ => rfl, rfl, rfl⟩
  intro s h1 h2 h3
  cases s with
  | off => exact absurd rfl h1
  | invalid => exact absurd rfl h2
  | unknown => exact absurd rfl h3
  | heating => rfl
  | cooling => rfl
  | ventilation => rfl
  | other str => rfl

/-- C10, witness: vwarmup.py reports climatization-on for a value
outside the enumerated set, on which main.py spawns nothing. -/
theorem revisions_classify_differently_witness :
    vwarmup_classify (.other "SOMETHING_NEW")
      = VwarmupAction.climatizationOn :=
  revisions_classify_differently.1 (.other "SOMETHING_NEW")
    (by simp) (by simp) (by simp)
